import Mathlib

/-!
Shallow embedding of the room session coordination core of a collaborative
music-player backend (`src/sockets/socketHandler.js` together with the Room
schema of `src/models/Room.js`).

JS optional string values (`undefined` or a string) are modelled as
`Option String`, with `none` standing for `undefined`.  The JS coercion
`String(x)` is `jsStr`, and the fallback `a || b` on such values is `jsOr`
(the empty string is falsy in JS).  Each socket handler is embedded as a
pure function from the room record found in the store for the given room id
(`Option Room`, `none` when the lookup misses) and the event payload to the
room record written back plus the list of emitted socket events, in source
order.  The Fisher-Yates shuffle's `Math.floor(Math.random() * (i + 1))`
draws are abstracted as a choice function `f : Nat → Nat` supplying the
index `j` used at loop index `i`.
-/

namespace MusicPlayer

/-- JS `String(x)` for an optional JS string: `String(undefined) = "undefined"`. -/
def jsStr : Option String → String
  | none => "undefined"
  | some s => s

/-- JS `a || b` on optional strings: the empty string is falsy. -/
def jsOr (a b : Option String) : Option String :=
  match a with
  | some s => if s = "" then b else some s
  | none => b

/-- A queue entry / current song (`queue` item of the Room schema). -/
structure Track where
  id : String
  queueId : Option String
  title : String
  thumbnail : String
  channel : String
  duration : Nat
deriving DecidableEq, Repr

/-- Status of a song request (`songRequests.status` enum). -/
inductive ReqStatus
  | pending
  | accepted
  | declined
deriving DecidableEq, Repr

/-- A `songRequests` entry of the Room schema; `reqId` is the `_id`. -/
structure SongRequest where
  reqId : String
  userId : Option String
  userName : String
  userColor : String
  id : String
  queueId : Option String
  title : String
  thumbnail : String
  channel : String
  duration : Nat
  status : ReqStatus
deriving DecidableEq, Repr

/-- The durable Room record (the fields the socket handlers read/write). -/
structure Room where
  roomId : String
  name : String
  creatorId : Option String
  djPermissions : List String
  queue : List Track
  currentSong : Option Track
  isPlaying : Bool
  currentTime : Int
  songRequests : List SongRequest
deriving DecidableEq, Repr

/-- Socket events emitted by the handlers (payloads the claims care about). -/
inductive Event
  | error (msg : String)
  | queueFeedback (type msg : String)
  | requestFeedback (type msg : String)
  | receivePlaySong (t : Option Track)
  | updateQueue (q : List Track)
  | receivePlay (time : Int)
  | receivePause
  | receiveSeek (time : Int)
  | songRequestsUpdated (reqs : List SongRequest)
  | roomCreated (roomId : String)
  | updateActiveRooms
deriving DecidableEq, Repr

/-- Holds `true` for the events that report an outcome to the requesting
connection (`error`, `queue_feedback`, `request_feedback`). -/
def isFeedback : Event → Bool
  | .error _ => true
  | .queueFeedback _ _ => true
  | .requestFeedback _ _ => true
  | _ => false

/-- Helper `hasDJPermission(room, userId)` of `socketHandler.js` (lines 7-14):
null room denies; then `String(room.creatorId) === String(userId)`; then
`room.djPermissions.includes(userId)` (strict equality, so an `undefined`
`userId` never matches a string element). -/
def hasDJPermission (room : Option Room) (userId : Option String) : Bool :=
  match room with
  | none => false
  | some r =>
    if jsStr r.creatorId == jsStr userId then true
    else
      match userId with
      | some u => r.djPermissions.contains u
      | none => false

/-- The `create_room` handler (lines 69-103): look up `roomId`; if absent,
create the record (defaults from the Room schema), emit `room_created`; if
present, do nothing.  `broadcastRooms(io)` runs in both branches. -/
def createRoom (existing : Option Room) (roomId : String) (name : Option String)
    (userId guestId : Option String) : Option Room × List Event :=
  match existing with
  | some room => (some room, [.updateActiveRooms])
  | none =>
    let room : Room :=
      { roomId := roomId
        name := (name.getD roomId)
        creatorId := jsOr userId guestId
        djPermissions := []
        queue := []
        currentSong := none
        isPlaying := false
        currentTime := 0
        songRequests := [] }
    (some room, [.roomCreated roomId, .updateActiveRooms])

/-- The `add_to_queue` handler (lines 197-244): reject a song whose id is
already in the queue or equals `currentSong.id`; otherwise push it; if
`currentSong` was null, shift the (post-push) queue head into
`currentSong` with `isPlaying = true`, `currentTime = 0`. -/
def addToQueue (room? : Option Room) (song : Track) : Option Room × List Event :=
  match room? with
  | none => (none, [])
  | some room =>
    let isDuplicate :=
      room.queue.any (fun s => s.id == song.id) ||
        (match room.currentSong with
         | some c => c.id == song.id
         | none => false)
    if isDuplicate then
      (some room, [.queueFeedback "error" "Signal already in sequence"])
    else
      let pushed := room.queue ++ [song]
      let room1 := { room with queue := pushed }
      match room1.currentSong with
      | some _ => (some room1, [.updateQueue pushed])
      | none =>
        let nextSg := pushed.head?
        let room2 := { room1 with
          currentSong := nextSg
          queue := pushed.tail
          isPlaying := true
          currentTime := 0 }
        (some room2, [.updateQueue pushed, .receivePlaySong nextSg, .updateQueue pushed.tail])

/-- The `next_song` handler (lines 271-307): DJ-gated; with a nonempty
queue, shift the head into `currentSong` (`isPlaying = true`,
`currentTime = 0`); with an empty queue, set `currentSong = null`,
`isPlaying = false` and emit `receive_pause`. -/
def nextSong (room? : Option Room) (userId guestId : Option String) :
    Option Room × List Event :=
  match room? with
  | none => (none, [])
  | some room =>
    let eff := jsOr userId guestId
    if !hasDJPermission (some room) eff then
      (some room, [.error "Only DJs can skip songs."])
    else if room.queue.length > 0 then
      let nextSg := room.queue.head?
      let room2 := { room with
        currentSong := nextSg
        queue := room.queue.tail
        isPlaying := true
        currentTime := 0 }
      (some room2, [.receivePlaySong nextSg, .updateQueue room2.queue])
    else
      (some { room with currentSong := none, isPlaying := false }, [.receivePause])

/-- The `remove_from_queue` handler (lines 309-332): DJ-gated (silent
denial); `$pull` removes every queue entry whose `id` equals `queueId`. -/
def removeFromQueue (room? : Option Room) (queueId : String)
    (userId guestId : Option String) : Option Room × List Event :=
  let eff := jsOr userId guestId
  if !hasDJPermission room? eff then
    (room?, [])
  else
    match room? with
    | none => (none, [])
    | some room =>
      let room2 := { room with queue := room.queue.filter (fun s => !(s.id == queueId)) }
      (some room2, [.updateQueue room2.queue])

/-- Swap of positions `i` and `j` of a list (the destructuring swap
`[a[i], a[j]] = [a[j], a[i]]`); identity when an index is out of range. -/
def listSwap (l : List α) (i j : Nat) : List α :=
  match l[i]?, l[j]? with
  | some a, some b => (l.set i b).set j a
  | _, _ => l

/-- The Fisher-Yates loop `for (let i = length-1; i > 0; i--)`: process
indices `i, i-1, ..., 1`, swapping index `i` with index `f i`. -/
def fyLoop (f : Nat → Nat) : List α → Nat → List α
  | arr, 0 => arr
  | arr, i + 1 => fyLoop f (listSwap arr (i + 1) (f (i + 1))) i

/-- The full Fisher-Yates shuffle of lines 346-350, with `f i` standing for
the draw `Math.floor(Math.random() * (i + 1))` at loop index `i`. -/
def fisherYates (f : Nat → Nat) (arr : List α) : List α :=
  fyLoop f arr (arr.length - 1)

/-- The `shuffle_queue` handler (lines 334-365): DJ-gated (silent denial);
no-op when the room is missing or the queue has length at most 1;
otherwise replace the queue by its Fisher-Yates shuffle. -/
def shuffleQueue (room? : Option Room) (userId guestId : Option String)
    (f : Nat → Nat) : Option Room × List Event :=
  let eff := jsOr userId guestId
  if !hasDJPermission room? eff then
    (room?, [])
  else
    match room? with
    | none => (none, [])
    | some room =>
      if room.queue.length ≤ 1 then (some room, [])
      else
        let shuffled := fisherYates f room.queue
        (some { room with queue := shuffled }, [.updateQueue shuffled])

/-- The `send_play` handler (lines 372-387): DJ-gated; sets
`isPlaying = true`, `currentTime = time` (no check of `currentSong`). -/
def sendPlay (room? : Option Room) (time : Int) (userId guestId : Option String) :
    Option Room × List Event :=
  match room? with
  | none => (none, [])
  | some room =>
    let eff := jsOr userId guestId
    if !hasDJPermission (some room) eff then
      (some room, [.error "Only DJs can play music."])
    else
      (some { room with isPlaying := true, currentTime := time }, [.receivePlay time])

/-- The `send_pause` handler (lines 390-405): DJ-gated; sets
`isPlaying = false`. -/
def sendPause (room? : Option Room) (userId guestId : Option String) :
    Option Room × List Event :=
  match room? with
  | none => (none, [])
  | some room =>
    let eff := jsOr userId guestId
    if !hasDJPermission (some room) eff then
      (some room, [.error "Only DJs can pause music."])
    else
      (some { room with isPlaying := false }, [.receivePause])

/-- The `send_seek` handler (lines 408-423): DJ-gated; sets
`currentTime = time`. -/
def sendSeek (room? : Option Room) (time : Int) (userId guestId : Option String) :
    Option Room × List Event :=
  match room? with
  | none => (none, [])
  | some room =>
    let eff := jsOr userId guestId
    if !hasDJPermission (some room) eff then
      (some room, [.error "Only DJs can scrub."])
    else
      (some { room with currentTime := time }, [.receiveSeek time])

/-- The `request_song` handler (lines 430-518): missing room errors;
reject when a pending request with the same track id exists; then reject
when the track id is already in the queue; otherwise append a new pending
request (`newReqId` models the generated ObjectId) and emit the updated
request list plus a success feedback.  `currentSong` is never consulted.
`mkRequest` is the `newRequest` object literal of lines 468-481. -/
def mkRequest (song : Track) (userId guestId userName userColor : Option String)
    (newReqId : String) : SongRequest :=
  { reqId := newReqId
    userId := jsOr userId guestId
    userName := userName.getD "Guest"
    userColor := userColor.getD "#3b82f6"
    id := song.id
    queueId := song.queueId
    title := song.title
    thumbnail := song.thumbnail
    channel := song.channel
    duration := song.duration
    status := .pending }

def requestSong (room? : Option Room) (song : Track)
    (userId guestId userName userColor : Option String)
    (newReqId : String) : Option Room × List Event :=
  match room? with
  | none => (none, [.error "Room not found"])
  | some room =>
    let isDuplicate :=
      room.songRequests.any (fun r => r.id == song.id && r.status == ReqStatus.pending)
    if isDuplicate then
      (some room, [.requestFeedback "error" "This song is already requested"])
    else
      let inQueue := room.queue.any (fun q => q.id == song.id)
      if inQueue then
        (some room, [.requestFeedback "error" "This song is already in the queue"])
      else
        let newReq := mkRequest song userId guestId userName userColor newReqId
        let room2 := { room with songRequests := room.songRequests ++ [newReq] }
        (some room2,
          [.songRequestsUpdated room2.songRequests,
           .requestFeedback "success" "Song requested successfully!"])

/-- The positional `$set: { 'songRequests.$.status': st }` update: set the
status of the first request whose `_id` matches. -/
def setFirstStatus : List SongRequest → String → ReqStatus → List SongRequest
  | [], _, _ => []
  | r :: rs, rid, st =>
    if r.reqId == rid then { r with status := st } :: rs
    else r :: setFirstStatus rs rid st

/-- The track pushed into the queue by `accept_request` (lines 547-556). -/
def trackOfRequest (req : SongRequest) : Track :=
  { id := req.id
    queueId := req.queueId
    title := req.title
    thumbnail := req.thumbnail
    channel := req.channel
    duration := req.duration }

/-- The `accept_request` handler (lines 521-592): missing room errors;
DJ-gated; missing request id errors; otherwise set that request's status
to `accepted` and push its track onto the queue (no change to
`currentSong`, `isPlaying` or `currentTime`). -/
def acceptRequest (room? : Option Room) (requestId : String)
    (userId guestId : Option String) : Option Room × List Event :=
  match room? with
  | none => (none, [.error "Room not found"])
  | some room =>
    let eff := jsOr userId guestId
    if !hasDJPermission (some room) eff then
      (some room, [.error "Only DJs can accept requests."])
    else
      match room.songRequests.find? (fun r => r.reqId == requestId) with
      | none => (some room, [.error "Request not found"])
      | some request =>
        let newReqs := setFirstStatus room.songRequests requestId .accepted
        let room2 := { room with
          songRequests := newReqs
          queue := room.queue ++ [trackOfRequest request] }
        (some room2, [.songRequestsUpdated newReqs, .updateQueue room2.queue])

/-- The `decline_request` handler (lines 595-634): missing room errors;
DJ-gated; the `findOneAndUpdate` keyed on `songRequests._id` matches no
document when the request id is absent, so the handler errors with
"Failed to decline request" and changes nothing; otherwise it sets the
matching request's status to `declined`; the queue is untouched. -/
def declineRequest (room? : Option Room) (requestId : String)
    (userId guestId : Option String) : Option Room × List Event :=
  match room? with
  | none => (none, [.error "Room not found"])
  | some room =>
    let eff := jsOr userId guestId
    if !hasDJPermission (some room) eff then
      (some room, [.error "Only DJs can decline requests."])
    else
      match room.songRequests.find? (fun r => r.reqId == requestId) with
      | none => (some room, [.error "Failed to decline request"])
      | some _ =>
        let newReqs := setFirstStatus room.songRequests requestId .declined
        let room2 := { room with songRequests := newReqs }
        (some room2, [.songRequestsUpdated newReqs])

/-! ### Helper lemmas -/

theorem cons_set_perm {α : Type} (xs : List α) (k : Nat) (x b : α)
    (h : xs[k]? = some b) : (b :: xs.set k x).Perm (x :: xs) := by
  induction xs generalizing k with
  | nil => simp at h
  | cons c ys ih =>
    cases k with
    | zero =>
      simp at h
      subst h
      simpa using List.Perm.swap x c ys
    | succ m =>
      simp at h
      have h1 : (b :: c :: ys.set m x).Perm (c :: b :: ys.set m x) :=
        List.Perm.swap c b (ys.set m x)
      have h2 : (c :: b :: ys.set m x).Perm (c :: x :: ys) := (ih m h).cons c
      have h3 : (c :: x :: ys).Perm (x :: c :: ys) := List.Perm.swap x c ys
      simpa using (h1.trans h2).trans h3

theorem listSwap_perm {α : Type} (l : List α) (i j : Nat) :
    (listSwap l i j).Perm l := by
  induction l generalizing i j with
  | nil => simp [listSwap]
  | cons x xs ih =>
    cases i with
    | zero =>
      cases j with
      | zero => simp [listSwap]
      | succ k =>
        cases hk : xs[k]? with
        | none => simp [listSwap, hk]
        | some b =>
          simpa [listSwap, hk] using cons_set_perm xs k x b hk
    | succ m =>
      cases hm : xs[m]? with
      | none => simp [listSwap, hm]
      | some a =>
        cases j with
        | zero =>
          simpa [listSwap, hm] using cons_set_perm xs m x a hm
        | succ k =>
          cases hk : xs[k]? with
          | none => simp [listSwap, hm, hk]
          | some b =>
            have := ih m k
            simp [listSwap, hm, hk] at this ⊢
            exact this

theorem fyLoop_perm {α : Type} (f : Nat → Nat) (arr : List α) (i : Nat) :
    (fyLoop f arr i).Perm arr := by
  induction i generalizing arr with
  | zero => simp [fyLoop]
  | succ n ih => exact (ih _).trans (listSwap_perm arr (n + 1) (f (n + 1)))

theorem fisherYates_perm {α : Type} (f : Nat → Nat) (arr : List α) :
    (fisherYates f arr).Perm arr :=
  fyLoop_perm f arr (arr.length - 1)

theorem setFirstStatus_eq_set (l : List SongRequest) (rid : String) (st : ReqStatus)
    (req : SongRequest) (h : l.find? (fun r => r.reqId == rid) = some req) :
    l[l.findIdx (fun r => r.reqId == rid)]? = some req ∧
    setFirstStatus l rid st =
      l.set (l.findIdx (fun r => r.reqId == rid)) { req with status := st } := by
  induction l with
  | nil => simp at h
  | cons r rs ih =>
    by_cases hr : r.reqId = rid
    · rw [List.find?_cons_of_pos _ (by simpa using hr)] at h
      injection h with h
      subst h
      constructor
      · simp [List.findIdx_cons, hr]
      · simp [setFirstStatus, List.findIdx_cons, hr]
    · have hrb : (r.reqId == rid) = false := by simpa using hr
      rw [List.find?_cons_of_neg _ (by simpa using hr)] at h
      obtain ⟨h1, h2⟩ := ih h
      constructor
      · simpa [List.findIdx_cons, hrb] using h1
      · simp [setFirstStatus, List.findIdx_cons, hrb, hr, h2]

/-! ### Concrete fixtures -/

def trackA : Track :=
  { id := "A", queueId := some "qA", title := "Alpha", thumbnail := "thA"
    channel := "chA", duration := 180 }

def trackB : Track :=
  { id := "B", queueId := some "qB", title := "Beta", thumbnail := "thB"
    channel := "chB", duration := 200 }

def trackC : Track :=
  { id := "C", queueId := some "qC", title := "Gamma", thumbnail := "thC"
    channel := "chC", duration := 240 }

def baseRoom : Room :=
  { roomId := "jam", name := "jam", creatorId := some "u1", djPermissions := ["d1"]
    queue := [], currentSong := none, isPlaying := false, currentTime := 0
    songRequests := [] }

/-! ### Claims -/

/-- The room produced by `create_room` for a fresh id: Idle
(`currentSong = none`, `isPlaying = false`). -/
def c1fresh : Option Room := (createRoom none "jam" none (some "u1") none).1

/-- That room after `send_play` with `time = 10` by its creator. -/
def c1after : Option Room := (sendPlay c1fresh 10 (some "u1") none).1

/-- Claim C1: The claim asserts that `isPlaying = true` implies
`currentSong ≠ null` in every reachable state, and in particular that
`send_play` on an Idle room is ignored or rejected.  The code violates
this: a room freshly created through the `create_room` handler is Idle,
and a `send_play` by its creator is accepted (the handler checks only DJ
permission, never `currentSong`), leaving the reachable state
`currentSong = none ∧ isPlaying = true`. -/
theorem c1_send_play_while_idle_sets_playing :
    c1fresh.map (fun r => (r.currentSong, r.isPlaying)) = some (none, false) ∧
    c1after.map (fun r => (r.currentSong, r.isPlaying)) = some (none, true) := by
  decide

/-- A room whose `creatorId` was never set (the schema allows this:
`creatorId` is not required, and `create_room` stores `userId || guestId`
which can be `undefined`). -/
def c2room : Room :=
  { roomId := "lounge", name := "lounge", creatorId := none, djPermissions := []
    queue := [], currentSong := none, isPlaying := false, currentTime := 0
    songRequests := [] }

/-- Claim C2: The claim asserts that an undefined effective identity fails
`hasDJPermission` for every room, including rooms with absent `creatorId`.
The code violates this: `String(undefined) === String(undefined)` compares
`"undefined"` with `"undefined"`, so an anonymous caller is granted DJ
permission on a creatorless room, and a DJ-gated action such as
`send_seek` then mutates room state. -/
theorem c2_anonymous_granted_dj_on_creatorless_room :
    c2room.creatorId = none ∧ c2room.djPermissions = [] ∧
    hasDJPermission (some c2room) none = true ∧
    (sendSeek (some c2room) 42 none none).1 = some { c2room with currentTime := 42 } := by
  decide

/-- Claim C5, counterexample: Creating a room whose `roomId` already exists:
the store is unchanged, but the handler emits no feedback event to the
requesting connection (no `error`, no `queue_feedback`/`request_feedback`,
no `room_created`) — only the public rooms broadcast runs.  This refutes
the claim that the duplicate "is reported to the requesting connection via
a feedback event (not silently ignored)". -/
theorem c5_counterexample_no_conflict_feedback :
    (createRoom (some baseRoom) "jam" (some "Jam Two") (some "u2") none).1 = some baseRoom ∧
    (∀ e ∈ (createRoom (some baseRoom) "jam" (some "Jam Two") (some "u2") none).2,
      isFeedback e = false ∧ e ≠ Event.roomCreated "jam") := by
  decide

/-- Claim C5, amended: Creating a room whose `roomId` already exists in the
store is a silent no-op: no new record is created, the existing room's
fields are unchanged, and no feedback event is sent to the requester
(only the `update_active_rooms` directory broadcast fires). -/
theorem c5_duplicate_create_is_silent (room : Room) (roomId : String)
    (name userId guestId : Option String) :
    createRoom (some room) roomId name userId guestId =
      (some room, [Event.updateActiveRooms]) := rfl

/-- A room currently playing `trackA`, with empty queue and no requests. -/
def c3room : Room := { baseRoom with currentSong := some trackA }

/-- The request record appended for `trackA` by guest `g1`. -/
def c3newReq : SongRequest := mkRequest trackA none (some "g1") none none "r1"

/-- Claim C3, counterexample: The claim asserts that `request_song` is
rejected when the requested track id equals `currentSong.id`.  The handler
never consults `currentSong`: requesting the currently playing track on a
room with empty queue and no pending requests succeeds, appending a new
pending request and emitting a success feedback. -/
theorem c3_counterexample_current_song_requestable :
    c3room.currentSong = some trackA ∧ c3room.queue = [] ∧ c3room.songRequests = [] ∧
    requestSong (some c3room) trackA none (some "g1") none none "r1" =
      (some { c3room with songRequests := [c3newReq] },
       [Event.songRequestsUpdated [c3newReq],
        Event.requestFeedback "success" "Song requested successfully!"]) := by
  decide

/-- Claim C3, amended: `request_song` is rejected — with a feedback event
and no change to `songRequests` — when a pending request with the same
track id exists, or (that failing) when the track id is already present in
the queue; in every other case, including when the track id equals
`currentSong.id` (which the handler never checks), a new pending request
is appended and a success feedback is emitted. -/
theorem c3_request_song_admission (room : Room) (song : Track)
    (userId guestId userName userColor : Option String) (newReqId : String) :
    (room.songRequests.any (fun r => r.id == song.id && r.status == ReqStatus.pending) = true →
      requestSong (some room) song userId guestId userName userColor newReqId =
        (some room, [Event.requestFeedback "error" "This song is already requested"])) ∧
    (room.songRequests.any (fun r => r.id == song.id && r.status == ReqStatus.pending) = false →
      room.queue.any (fun q => q.id == song.id) = true →
      requestSong (some room) song userId guestId userName userColor newReqId =
        (some room, [Event.requestFeedback "error" "This song is already in the queue"])) ∧
    (room.songRequests.any (fun r => r.id == song.id && r.status == ReqStatus.pending) = false →
      room.queue.any (fun q => q.id == song.id) = false →
      (mkRequest song userId guestId userName userColor newReqId).status = ReqStatus.pending ∧
      (mkRequest song userId guestId userName userColor newReqId).id = song.id ∧
      requestSong (some room) song userId guestId userName userColor newReqId =
        (some { room with songRequests :=
            room.songRequests ++ [mkRequest song userId guestId userName userColor newReqId] },
         [Event.songRequestsUpdated
            (room.songRequests ++ [mkRequest song userId guestId userName userColor newReqId]),
          Event.requestFeedback "success" "Song requested successfully!"])) := by
  refine ⟨fun h1 => ?_, fun h1 h2 => ?_, fun h1 h2 => ⟨rfl, rfl, ?_⟩⟩
  · simp [requestSong, h1]
  · simp [requestSong, h1, h2]
  · simp [requestSong, h1, h2]

/-- A room holding a pending request for `trackC`. -/
def c3wr1 : Room :=
  { baseRoom with songRequests := [mkRequest trackC none (some "g0") none none "r0"] }

/-- A room whose queue already holds `trackC`. -/
def c3wr2 : Room := { baseRoom with queue := [trackC] }

/-- Witness for C3 (amended): the three admission outcomes at concrete
rooms. -/
theorem c3_request_song_admission_w :
    requestSong (some c3wr1) trackC none (some "g1") none none "r9" =
      (some c3wr1, [Event.requestFeedback "error" "This song is already requested"]) ∧
    requestSong (some c3wr2) trackC none (some "g1") none none "r9" =
      (some c3wr2, [Event.requestFeedback "error" "This song is already in the queue"]) ∧
    requestSong (some baseRoom) trackC none (some "g1") none none "r9" =
      (some { baseRoom with songRequests := [mkRequest trackC none (some "g1") none none "r9"] },
       [Event.songRequestsUpdated [mkRequest trackC none (some "g1") none none "r9"],
        Event.requestFeedback "success" "Song requested successfully!"]) := by
  refine ⟨(c3_request_song_admission c3wr1 trackC none (some "g1") none none "r9").1 (by decide),
    (c3_request_song_admission c3wr2 trackC none (some "g1") none none "r9").2.1
      (by decide) (by decide), ?_⟩
  have h := (c3_request_song_admission baseRoom trackC none (some "g1") none none "r9").2.2
    (by decide) (by decide)
  simpa using h.2.2

/-- Claim C4: `accept_request` by a DJ on an existing request id sets exactly
that request's status (the first, hence by `_id`-uniqueness the only, match)
to `accepted` and appends exactly its track to the queue, leaving
`currentSong`, `isPlaying` and `currentTime` untouched (no auto-advance);
`decline_request` sets the status to `declined` and leaves the queue
untouched; both surface an `error` and change no state when the request id
is absent. -/
theorem c4_accept_decline_requests (room : Room) (requestId : String)
    (userId guestId : Option String)
    (hperm : hasDJPermission (some room) (jsOr userId guestId) = true) :
    (∀ req, room.songRequests.find? (fun r => r.reqId == requestId) = some req →
      room.songRequests[room.songRequests.findIdx (fun r => r.reqId == requestId)]? = some req ∧
      acceptRequest (some room) requestId userId guestId =
        (some { room with
            songRequests := room.songRequests.set
              (room.songRequests.findIdx (fun r => r.reqId == requestId))
              { req with status := ReqStatus.accepted }
            queue := room.queue ++ [trackOfRequest req] },
         [Event.songRequestsUpdated (room.songRequests.set
            (room.songRequests.findIdx (fun r => r.reqId == requestId))
            { req with status := ReqStatus.accepted }),
          Event.updateQueue (room.queue ++ [trackOfRequest req])])) ∧
    (room.songRequests.find? (fun r => r.reqId == requestId) = none →
      acceptRequest (some room) requestId userId guestId =
        (some room, [Event.error "Request not found"])) ∧
    (∀ req, room.songRequests.find? (fun r => r.reqId == requestId) = some req →
      declineRequest (some room) requestId userId guestId =
        (some { room with
            songRequests := room.songRequests.set
              (room.songRequests.findIdx (fun r => r.reqId == requestId))
              { req with status := ReqStatus.declined } },
         [Event.songRequestsUpdated (room.songRequests.set
            (room.songRequests.findIdx (fun r => r.reqId == requestId))
            { req with status := ReqStatus.declined })])) ∧
    (room.songRequests.find? (fun r => r.reqId == requestId) = none →
      declineRequest (some room) requestId userId guestId =
        (some room, [Event.error "Failed to decline request"])) := by
  refine ⟨?_, ?_, ?_, ?_⟩
  · intro req h
    obtain ⟨h1, h2⟩ := setFirstStatus_eq_set room.songRequests requestId .accepted req h
    exact ⟨h1, by simp [acceptRequest, hperm, h, h2]⟩
  · intro h
    simp [acceptRequest, hperm, h]
  · intro req h
    obtain ⟨h1, h2⟩ := setFirstStatus_eq_set room.songRequests requestId .declined req h
    simp [declineRequest, hperm, h, h2]
  · intro h
    simp [declineRequest, hperm, h]

/-- A pending request for `trackB` with `_id` `"r1"`. -/
def c4req : SongRequest := mkRequest trackB none (some "g2") (some "Bea") none "r1"

/-- A room holding that single pending request. -/
def c4room : Room := { baseRoom with songRequests := [c4req] }

/-- Fixture `c4req` after acceptance. -/
def c4reqAcc : SongRequest := { c4req with status := ReqStatus.accepted }

/-- Fixture `c4req` after decline. -/
def c4reqDec : SongRequest := { c4req with status := ReqStatus.declined }

/-- Fixture `c4room` after the accept: request accepted, track queued. -/
def c4roomAcc : Room :=
  { c4room with songRequests := [c4reqAcc], queue := [trackOfRequest c4req] }

/-- Fixture `c4room` after the decline: status changed, queue untouched. -/
def c4roomDec : Room := { c4room with songRequests := [c4reqDec] }

/-- Witness for C4: accept, decline, and the absent-id error paths, at a
concrete room. -/
theorem c4_accept_decline_requests_w :
    acceptRequest (some c4room) "r1" (some "u1") none =
      (some c4roomAcc,
       [Event.songRequestsUpdated [c4reqAcc], Event.updateQueue [trackOfRequest c4req]]) ∧
    declineRequest (some c4room) "r1" (some "u1") none =
      (some c4roomDec, [Event.songRequestsUpdated [c4reqDec]]) ∧
    acceptRequest (some c4room) "nope" (some "u1") none =
      (some c4room, [Event.error "Request not found"]) ∧
    declineRequest (some c4room) "nope" (some "u1") none =
      (some c4room, [Event.error "Failed to decline request"]) := by
  have h := c4_accept_decline_requests c4room "r1" (some "u1") none (by decide)
  have h2 := c4_accept_decline_requests c4room "nope" (some "u1") none (by decide)
  refine ⟨?_, ?_, h2.2.1 (by decide), h2.2.2.2 (by decide)⟩
  · exact ((h.1 c4req (by decide)).2).trans (by decide)
  · exact (h.2.2.1 c4req (by decide)).trans (by decide)

theorem hasDJPermission_eq_false (room : Room) (eff : Option String)
    (hc : jsStr eff ≠ jsStr room.creatorId)
    (hd : ∀ u ∈ room.djPermissions, eff ≠ some u) :
    hasDJPermission (some room) eff = false := by
  have hcb : (jsStr room.creatorId == jsStr eff) = false := by
    simpa using fun h => hc h.symm
  cases eff with
  | none => simp [hasDJPermission, hcb]
  | some u =>
    have hu : u ∉ room.djPermissions := fun hm => hd u hm rfl
    simp [hasDJPermission, hcb, hu]

/-- Claim C6: Every DJ-gated action (`next_song`, `send_play`, `send_pause`,
`send_seek`, `remove_from_queue`, `shuffle_queue`, `accept_request`,
`decline_request`) invoked with an effective identity that equals neither
the room's `creatorId` (compared as strings, via the `String(...)`
coercion) nor any member of `djPermissions` is denied, and the stored room
state is not mutated. -/
theorem c6_unauthorized_actions_no_mutation (room : Room) (userId guestId : Option String)
    (time : Int) (queueId requestId : String) (f : Nat → Nat)
    (hc : jsStr (jsOr userId guestId) ≠ jsStr room.creatorId)
    (hd : ∀ u ∈ room.djPermissions, jsOr userId guestId ≠ some u) :
    (nextSong (some room) userId guestId).1 = some room ∧
    (sendPlay (some room) time userId guestId).1 = some room ∧
    (sendPause (some room) userId guestId).1 = some room ∧
    (sendSeek (some room) time userId guestId).1 = some room ∧
    (removeFromQueue (some room) queueId userId guestId).1 = some room ∧
    (shuffleQueue (some room) userId guestId f).1 = some room ∧
    (acceptRequest (some room) requestId userId guestId).1 = some room ∧
    (declineRequest (some room) requestId userId guestId).1 = some room := by
  have hperm := hasDJPermission_eq_false room (jsOr userId guestId) hc hd
  refine ⟨?_, ?_, ?_, ?_, ?_, ?_, ?_, ?_⟩ <;>
    simp [nextSong, sendPlay, sendPause, sendSeek, removeFromQueue, shuffleQueue,
      acceptRequest, declineRequest, hperm]

/-- Witness for C6: the eight denials at a concrete room and outsider. -/
theorem c6_unauthorized_actions_no_mutation_w :
    (nextSong (some baseRoom) (some "evil") none).1 = some baseRoom ∧
    (sendPlay (some baseRoom) 7 (some "evil") none).1 = some baseRoom ∧
    (sendPause (some baseRoom) (some "evil") none).1 = some baseRoom ∧
    (sendSeek (some baseRoom) 7 (some "evil") none).1 = some baseRoom ∧
    (removeFromQueue (some baseRoom) "A" (some "evil") none).1 = some baseRoom ∧
    (shuffleQueue (some baseRoom) (some "evil") none (fun _ => 0)).1 = some baseRoom ∧
    (acceptRequest (some baseRoom) "r1" (some "evil") none).1 = some baseRoom ∧
    (declineRequest (some baseRoom) "r1" (some "evil") none).1 = some baseRoom :=
  c6_unauthorized_actions_no_mutation baseRoom (some "evil") none 7 "A" "r1"
    (fun _ => 0) (by decide) (by decide)

/-- A pending request for `trackB` with `_id` `"rB"`, used to reach an
Idle room with a nonempty queue. -/
def c7reqB : SongRequest := mkRequest trackB none (some "g2") none none "rB"

/-- An Idle room with that pending request. -/
def c7start : Room := { baseRoom with songRequests := [c7reqB] }

/-- The room after the creator accepts the request: still Idle
(`currentSong = none`) but with a nonempty queue — `accept_request` does
not auto-advance. -/
def c7mid : Option Room := (acceptRequest (some c7start) "rB" (some "u1") none).1

/-- That room after `add_to_queue` of the (non-duplicate) `trackA`. -/
def c7res : Option Room := (addToQueue c7mid trackA).1

/-- Claim C7, counterexample: The claim asserts that enqueueing a
non-duplicate track onto an Idle room makes the added track the
`currentSong` and removes it from the queue.  In the reachable Idle state
with a nonempty queue (obtained by accepting a song request while Idle),
`add_to_queue` of `trackA` auto-starts the old queue head (`trackB`'s
accepted entry), not `trackA`, and `trackA` stays in the queue. -/
theorem c7_counterexample_autoplay_plays_head :
    c7mid.map (fun r => (r.currentSong, r.queue)) =
      some (none, [trackOfRequest c7reqB]) ∧
    c7res.map (fun r => (r.currentSong, r.queue)) =
      some (some (trackOfRequest c7reqB), [trackA]) ∧
    trackOfRequest c7reqB ≠ trackA := by
  decide

/-- Claim C7, amended: Enqueue (`add_to_queue`) of a non-duplicate track
onto an Idle room (`currentSong = null`) always transitions the room to
Playing: the head of the post-append queue becomes `currentSong` (that
head is the added track exactly when the queue was empty), `isPlaying`
becomes `true`, `currentTime` becomes `0`, and that head is removed from
the queue. -/
theorem c7_enqueue_idle_autoplays_head (room : Room) (song : Track)
    (hIdle : room.currentSong = none)
    (hdup : room.queue.any (fun s => s.id == song.id) = false) :
    addToQueue (some room) song =
      (some { room with
          currentSong := (room.queue ++ [song]).head?
          queue := (room.queue ++ [song]).tail
          isPlaying := true
          currentTime := 0 },
       [Event.updateQueue (room.queue ++ [song]),
        Event.receivePlaySong ((room.queue ++ [song]).head?),
        Event.updateQueue ((room.queue ++ [song]).tail)]) ∧
    (room.queue = [] → (room.queue ++ [song]).head? = some song) := by
  constructor
  · simp [addToQueue, hIdle, hdup]
  · intro h
    simp [h]

/-- Witness for C7 (amended): enqueue onto an Idle room with empty queue
plays the added track with `currentTime = 0`. -/
theorem c7_enqueue_idle_autoplays_head_w :
    addToQueue (some baseRoom) trackA =
      (some { baseRoom with currentSong := some trackA, queue := [], isPlaying := true, currentTime := 0 },
       [Event.updateQueue [trackA], Event.receivePlaySong (some trackA),
        Event.updateQueue []]) :=
  ((c7_enqueue_idle_autoplays_head baseRoom trackA (by decide) (by decide)).1).trans
    (by decide)

/-- Claim C8: `next_song` by a DJ: with an empty queue it yields Idle
(`currentSong = null`, `isPlaying = false`) and emits `receive_pause`;
with a nonempty queue it makes the old head the `currentSong` with
`isPlaying = true` and `currentTime = 0`, emits `receive_play_song`
carrying that head and `update_queue` carrying the remainder. -/
theorem c8_advance (room : Room) (userId guestId : Option String)
    (hperm : hasDJPermission (some room) (jsOr userId guestId) = true) :
    (room.queue = [] →
      nextSong (some room) userId guestId =
        (some { room with currentSong := none, isPlaying := false },
         [Event.receivePause])) ∧
    (∀ t rest, room.queue = t :: rest →
      nextSong (some room) userId guestId =
        (some { room with currentSong := some t, queue := rest, isPlaying := true, currentTime := 0 },
         [Event.receivePlaySong (some t), Event.updateQueue rest])) := by
  constructor
  · intro h
    simp [nextSong, hperm, h]
  · intro t rest h
    simp [nextSong, hperm, h]

/-- A Playing room with a two-track queue, administered by `d1` through
`djPermissions`. -/
def c8roomB : Room :=
  { baseRoom with currentSong := some trackA, isPlaying := true, queue := [trackB, trackC] }

/-- Witness for C8: both branches at concrete rooms (creator and granted
DJ respectively). -/
theorem c8_advance_w :
    nextSong (some baseRoom) (some "u1") none =
      (some { baseRoom with currentSong := none, isPlaying := false },
       [Event.receivePause]) ∧
    nextSong (some c8roomB) (some "d1") none =
      (some { c8roomB with currentSong := some trackB, queue := [trackC], isPlaying := true, currentTime := 0 },
       [Event.receivePlaySong (some trackB), Event.updateQueue [trackC]]) :=
  ⟨(c8_advance baseRoom (some "u1") none (by decide)).1 rfl,
   (c8_advance c8roomB (some "d1") none (by decide)).2 trackB [trackC] rfl⟩

/-- Claim C9: Enqueue of a track whose id equals `currentSong.id` or the id
of a track already in the queue is rejected: a `queue_feedback` event of
type `error` is emitted and the stored room state is unchanged. -/
theorem c9_duplicate_enqueue_rejected (room : Room) (song : Track)
    (hdup : (∃ s ∈ room.queue, s.id = song.id) ∨
      (∃ c, room.currentSong = some c ∧ c.id = song.id)) :
    addToQueue (some room) song =
      (some room, [Event.queueFeedback "error" "Signal already in sequence"]) := by
  have hb : (room.queue.any (fun s => s.id == song.id) ||
      (match room.currentSong with
       | some c => c.id == song.id
       | none => false)) = true := by
    rcases hdup with ⟨s, hs, hid⟩ | ⟨c, hc, hid⟩
    · have : room.queue.any (fun s => s.id == song.id) = true :=
        List.any_eq_true.mpr ⟨s, hs, by simpa using hid⟩
      simp [this]
    · rw [hc]
      simp [hid]
  simp [addToQueue, hb]

/-- A room playing `trackA` with `trackB` queued. -/
def c9room : Room := { baseRoom with currentSong := some trackA, queue := [trackB] }

/-- Witness for C9: rejection for a queued duplicate and for the current
song. -/
theorem c9_duplicate_enqueue_rejected_w :
    addToQueue (some c9room) trackB =
      (some c9room, [Event.queueFeedback "error" "Signal already in sequence"]) ∧
    addToQueue (some c9room) trackA =
      (some c9room, [Event.queueFeedback "error" "Signal already in sequence"]) :=
  ⟨c9_duplicate_enqueue_rejected c9room trackB (Or.inl ⟨trackB, by decide, rfl⟩),
   c9_duplicate_enqueue_rejected c9room trackA (Or.inr ⟨trackA, rfl, rfl⟩)⟩

/-- Claim C10: `shuffle_queue` by a DJ: on a queue of length at most 1 it is
a no-op; on a longer queue it replaces the queue by a permutation of the
same elements (same multiset, same length) for every possible sequence of
random draws, and does not change `currentSong`, `isPlaying` or
`currentTime`. -/
theorem c10_shuffle_perm (room : Room) (userId guestId : Option String) (f : Nat → Nat)
    (hperm : hasDJPermission (some room) (jsOr userId guestId) = true) :
    (room.queue.length ≤ 1 →
      shuffleQueue (some room) userId guestId f = (some room, [])) ∧
    (1 < room.queue.length →
      shuffleQueue (some room) userId guestId f =
        (some { room with queue := fisherYates f room.queue },
         [Event.updateQueue (fisherYates f room.queue)]) ∧
      (fisherYates f room.queue).Perm room.queue ∧
      Multiset.ofList (fisherYates f room.queue) = Multiset.ofList room.queue ∧
      (fisherYates f room.queue).length = room.queue.length) := by
  constructor
  · intro h
    simp [shuffleQueue, hperm, h]
  · intro h
    have hp := fisherYates_perm f room.queue
    refine ⟨?_, hp, Quot.sound hp, hp.length_eq⟩
    simp [shuffleQueue, hperm, Nat.not_le.mpr h]

/-- A Playing room with a two-track queue. -/
def c10room : Room :=
  { baseRoom with currentSong := some trackA, isPlaying := true, queue := [trackB, trackC] }

/-- Witness for C10: a singleton queue is untouched; a two-track queue is
replaced by a permutation of itself (draw `j = 0` at `i = 1` swaps the two
entries). -/
theorem c10_shuffle_perm_w :
    shuffleQueue (some { baseRoom with queue := [trackB] }) (some "u1") none (fun _ => 0) =
      (some { baseRoom with queue := [trackB] }, []) ∧
    shuffleQueue (some c10room) (some "u1") none (fun _ => 0) =
      (some { c10room with queue := [trackC, trackB] },
       [Event.updateQueue [trackC, trackB]]) ∧
    List.Perm [trackC, trackB] c10room.queue := by
  have h1 := (c10_shuffle_perm { baseRoom with queue := [trackB] } (some "u1") none
    (fun _ => 0) (by decide)).1 (by decide)
  have h2 := (c10_shuffle_perm c10room (some "u1") none (fun _ => 0) (by decide)).2
    (by decide)
  have hfy : fisherYates (fun _ => 0) c10room.queue = [trackC, trackB] := by decide
  refine ⟨h1, ?_, ?_⟩
  · exact h2.1.trans (by rw [hfy])
  · have := h2.2.1
    rw [hfy] at this
    exact this

end MusicPlayer
